import Mathlib

/-!
Shallow embedding of the SwitchBot device-pairing config flow
(homeassistant/components/switchbot/config_flow.py) and of the PurpleAir
options sub-flow exercised by tests/components/purpleair/test_config_flow.py.

Python strings are modelled by Lean strings; Python dicts that are only
looked up by key are modelled by association lists in insertion order,
where a later binding shadows an earlier one (dget).  External collaborators
(the bluetooth discovery subsystem, the switchbot advertisement parser, the
device key verifier, the cloud identity service and the key endpoint) are
modelled as oracle fields of an environment record, exactly at the call
boundary the source uses them.
-/

/-- Python dict lookup d.get(k): the value of the last binding of k, none
when k is absent.  Later bindings shadow earlier ones, as in a dict built
by successive insertions. -/
def dget (d : List (String × String)) (k : String) : Option String :=
  match d with
  | [] => none
  | (k2, v) :: rest =>
    match dget rest k with
    | some v2 => some v2
    | none => if k2 = k then some v else none

/-- Format the unique ID for a switchbot.
Python: address.replace(colon, empty).lower().  Replacing each single
colon character by the empty string removes every colon, and str.lower
maps every character to its lower-case form. -/
def format_unique_id (address : String) : String :=
  ⟨(address.data.filter (fun c => c != ':')).map Char.toLower⟩

/-- Convert a Bluetooth address to a short address.
Python: results = address.replace(dash, colon).split(colon);
the last two segments upper-cased, concatenated, last four characters. -/
def short_address (address : String) : String :=
  let results := (String.mk (address.data.map (fun c => if c == '-' then ':' else c))).splitOn ":"
  let r2 := (results.getD (results.length - 2) "")
  let r1 := (results.getD (results.length - 1) "")
  let full := (r2.data.map Char.toUpper) ++ (r1.data.map Char.toUpper)
  ⟨full.drop (full.length - 4)⟩

/-- The parsed advertisement returned by the external switchbot library
(SwitchBotAdvertisement).  modelName is Option because the code reads it
with data.get; modelFriendlyName and isEncrypted are read with mandatory
indexing on parsed advertisements. -/
structure SwitchBotAdvertisement where
  address : String
  modelName : Option String
  modelFriendlyName : String
  isEncrypted : Bool
deriving DecidableEq, Repr

/-- Get the name from a discovery. -/
def name_from_discovery (discovery : SwitchBotAdvertisement) : String :=
  discovery.modelFriendlyName ++ " " ++ short_address discovery.address

/-- A bluetooth discovery event (BluetoothServiceInfoBleak).  The field
parsed is the result of the external call
parse_advertisement_data(discovery_info.device, discovery_info.advertisement),
folded into the event since the raw payload is opaque to the flow. -/
structure BluetoothServiceInfo where
  address : String
  connectable : Bool
  parsed : Option SwitchBotAdvertisement
deriving DecidableEq, Repr

/-- Modelled from the spec: const.py of the switchbot component is not
among the sources.  The spec describes a supported-type set split into
model types that require a connectable transport and model types that do
not; each supported model maps to its sensor type string (the value
str(SUPPORTED_MODEL_TYPES[model_name]) put into the persisted data). -/
structure ModelSets where
  CONNECTABLE_SUPPORTED_MODEL_TYPES : List (String × String)
  NON_CONNECTABLE_SUPPORTED_MODEL_TYPES : List (String × String)
deriving DecidableEq, Repr

/-- Modelled from the spec: SUPPORTED_MODEL_TYPES is the union of the
connectable-supported and the non-connectable-supported model maps. -/
def SUPPORTED_MODEL_TYPES (ms : ModelSets) : List (String × String) :=
  ms.CONNECTABLE_SUPPORTED_MODEL_TYPES ++ ms.NON_CONNECTABLE_SUPPORTED_MODEL_TYPES

/-- Python membership test model_name in d for an optional model name:
None is never a key of a dict keyed by strings. -/
def dict_contains (d : List (String × String)) (k : Option String) : Bool :=
  match k with
  | none => false
  | some key => (d.lookup key).isSome

/-- The switchbot library enum value SwitchbotModel.LOCK (external
dependency); only its identity as a distinguished model name matters. -/
def SwitchbotModel.LOCK : String := "WoLock"

def CONF_ADDRESS : String := "address"
def CONF_PASSWORD : String := "password"
def CONF_SENSOR_TYPE : String := "sensor_type"
def CONF_USERNAME : String := "username"
def CONF_KEY_ID : String := "key_id"
def CONF_ENCRYPTION_KEY : String := "encryption_key"

/-- Transient per-run state of SwitchbotConfigFlow: the selected
advertisement, the map of discovered advertisements keyed by address, and
the unique id set on the flow. -/
structure FlowState where
  discovered_adv : Option SwitchBotAdvertisement := none
  discovered_advs : List (String × SwitchBotAdvertisement) := []
  unique_id : Option String := none
deriving DecidableEq, Repr

/-- Terminal or rendered outcome handed back to the host framework. -/
inductive FlowResult where
  | abort (reason : String)
  | showForm (step_id : String) (errors : List (String × String))
  | createEntry (title : String) (data : List (String × String))
deriving DecidableEq, Repr

/-- Outcome of running one step handler: a flow result together with the
transient state after the handler ran, a failed Python assert, or an
exception that propagates out of the handler uncaught. -/
inductive StepResult where
  | ok (result : FlowResult) (state : FlowState)
  | assertionFailed
  | uncaughtException
deriving DecidableEq, Repr

/-- The AuthenticationResult member of the cognito response; AccessToken
is Option because the code tests for its presence. -/
structure AuthResult where
  accessToken : Option String
deriving DecidableEq, Repr

/-- The value returned by initiate_auth when it does not raise; None and
a missing AuthenticationResult member are both possible. -/
structure AuthResponse where
  authenticationResult : Option AuthResult
deriving DecidableEq, Repr

/-- Outcome of the external cognito initiate_auth call: the explicit
NotAuthorizedException, any other raised exception, or a returned value. -/
inductive InitiateAuthOutcome where
  | notAuthorized
  | raisedOther
  | returned (response : Option AuthResponse)
deriving DecidableEq, Repr

/-- Outcome of the external key-retrieval HTTP POST plus JSON decode:
raised covers transport errors, timeouts and malformed JSON (none of
which the source catches); response carries a decoded body with its
statusCode and communication key fields. -/
inductive KeyRequestOutcome where
  | raised
  | response (statusCode : Int) (keyId : String) (key : String)
deriving DecidableEq, Repr

/-- Result of retrieve_lock_key: the returned key-details dict, a raised
RuntimeError with its message, or a non-RuntimeError exception that
propagates to the caller. -/
inductive LockKeyResult where
  | keyDetails (key_details : List (String × String))
  | runtimeError (msg : String)
  | uncaught
deriving DecidableEq, Repr

/-- The environment of one flow run: the unique ids of already persisted
entries, the discovery backlog per connectable flag, and the oracles for
the external verification and cloud calls. -/
structure Env where
  configured_ids : List String
  service_infos : Bool → List BluetoothServiceInfo
  verify_encryption_key : String → Option String → Option String → Bool
  initiate_auth : Option String → Option String → InitiateAuthOutcome
  key_request : String → String → KeyRequestOutcome

/-- Retrieve lock key from internal SwitchBot API.  The keyed-hash
signature sent to the identity service is opaque data with no effect on
control flow and is not modelled.  NotAuthorizedException and every other
exception from initiate_auth, a malformed authentication response, and an
unexpected statusCode all raise RuntimeError (with distinct message
strings); an exception from the HTTP key request itself is not caught and
propagates. -/
def retrieve_lock_key (env : Env) (device_mac : String) (username password : Option String) : LockKeyResult :=
  match env.initiate_auth username password with
  | .notAuthorized => .runtimeError "Failed to authenticate"
  | .raisedOther => .runtimeError "Unexpected error during authentication"
  | .returned response =>
    match response with
    | none => .runtimeError "Unexpected authentication response"
    | some auth =>
      match auth.authenticationResult with
      | none => .runtimeError "Unexpected authentication response"
      | some result =>
        match result.accessToken with
        | none => .runtimeError "Unexpected authentication response"
        | some access_token =>
          let device_mac_normalized : String :=
            ⟨((device_mac.data.filter (fun c => c != ':')).filter (fun c => c != '-')).map Char.toUpper⟩
          match env.key_request access_token device_mac_normalized with
          | .raised => .uncaught
          | .response statusCode keyId key =>
            if statusCode ≠ 100 then
              .runtimeError ("Unexpected status code returned byt SwitchBot API: " ++ toString statusCode)
            else
              .keyDetails [(CONF_KEY_ID, keyId), (CONF_ENCRYPTION_KEY, key)]

/-- Create an entry from a discovery.  Python asserts _discovered_adv is
set, then builds the data dict user_input updated with the address and
the sensor type string looked up in SUPPORTED_MODEL_TYPES (a missing
modelName key or an unsupported model raises KeyError). -/
def create_entry_from_discovery (ms : ModelSets) (st : FlowState)
    (user_input : List (String × String)) : StepResult :=
  match st.discovered_adv with
  | none => .assertionFailed
  | some discovery =>
    match discovery.modelName with
    | none => .uncaughtException
    | some model_name =>
      match (SUPPORTED_MODEL_TYPES ms).lookup model_name with
      | none => .uncaughtException
      | some sensor_type =>
        .ok (.createEntry (name_from_discovery discovery)
              (user_input ++ [(CONF_ADDRESS, discovery.address), (CONF_SENSOR_TYPE, sensor_type)]))
          st

/-- Confirm a single device. -/
def async_step_confirm (ms : ModelSets) (st : FlowState)
    (user_input : Option (List (String × String))) : StepResult :=
  match st.discovered_adv with
  | none => .assertionFailed
  | some _ =>
    match user_input with
    | some ui => create_entry_from_discovery ms st ui
    | none => .ok (.showForm "confirm" []) st

/-- Handle the password step.  There is no api to validate the password
without operating the device, so any submitted input is accepted as-is. -/
def async_step_password (ms : ModelSets) (st : FlowState)
    (user_input : Option (List (String × String))) : StepResult :=
  match st.discovered_adv with
  | none => .assertionFailed
  | some _ =>
    match user_input with
    | some ui => create_entry_from_discovery ms st ui
    | none => .ok (.showForm "password" []) st

/-- Handle the encryption key step.  On submitted input the key pair is
verified against the device via the external
SwitchbotLock.verify_encryption_key call; failure re-renders the form with
field errors on both fields, success creates the entry. -/
def async_step_lock_key (env : Env) (ms : ModelSets) (st : FlowState)
    (user_input : Option (List (String × String))) : StepResult :=
  match st.discovered_adv with
  | none => .assertionFailed
  | some adv =>
    match user_input with
    | some ui =>
      if !(env.verify_encryption_key adv.address (dget ui CONF_KEY_ID) (dget ui CONF_ENCRYPTION_KEY)) then
        .ok (.showForm "lock_key"
              [(CONF_KEY_ID, "key_id_invalid"), (CONF_ENCRYPTION_KEY, "encryption_key_invalid")])
          st
      else
        create_entry_from_discovery ms st ui
    | none => .ok (.showForm "lock_key" []) st

/-- Handle the SwitchBot API auth step.  On submitted input
retrieve_lock_key runs on an executor; a returned key-details dict is fed
to the lock_key step as its user input, a RuntimeError of any kind is
caught and re-renders the form with the auth_failed error on the username
field, and any other exception propagates. -/
def async_step_lock_auth (env : Env) (ms : ModelSets) (st : FlowState)
    (user_input : Option (List (String × String))) : StepResult :=
  match st.discovered_adv with
  | none => .assertionFailed
  | some adv =>
    match user_input with
    | some ui =>
      match retrieve_lock_key env adv.address (dget ui CONF_USERNAME) (dget ui CONF_PASSWORD) with
      | .keyDetails key_details => async_step_lock_key env ms st (some key_details)
      | .runtimeError _ => .ok (.showForm "lock_auth" [(CONF_USERNAME, "auth_failed")]) st
      | .uncaught => .uncaughtException
    | none => .ok (.showForm "lock_auth" []) st

/-- Handle the SwitchBot API chose method step. -/
def async_step_lock_chose_method (env : Env) (ms : ModelSets) (st : FlowState)
    (user_input : Option (List (String × String))) : StepResult :=
  match st.discovered_adv with
  | none => .assertionFailed
  | some _ =>
    match user_input with
    | some ui =>
      if dget ui "method" = some "login_password" then
        async_step_lock_auth env ms st none
      else if dget ui "method" = some "encryption_key" then
        async_step_lock_key env ms st none
      else
        .ok (.showForm "lock_chose_method" []) st
    | none => .ok (.showForm "lock_chose_method" []) st

/-- Handle the bluetooth discovery step.  The unique id is set from the
normalized address before anything else; an already configured unique id
aborts with already_configured; an unparseable advertisement or an
unsupported model aborts with not_supported; a connectable-only model seen
over a non-connectable source aborts with not_supported; otherwise the
advertisement is stored and the flow continues with the password step for
encrypted devices or the confirm step. -/
def async_step_bluetooth (env : Env) (ms : ModelSets) (st : FlowState)
    (discovery_info : BluetoothServiceInfo) : StepResult :=
  let uid := format_unique_id discovery_info.address
  let st1 := { st with unique_id := some uid }
  if env.configured_ids.contains uid then
    .ok (.abort "already_configured") st1
  else
    match discovery_info.parsed with
    | none => .ok (.abort "not_supported") st1
    | some parsed =>
      if !(dict_contains (SUPPORTED_MODEL_TYPES ms) parsed.modelName) then
        .ok (.abort "not_supported") st1
      else if !discovery_info.connectable
          && dict_contains ms.CONNECTABLE_SUPPORTED_MODEL_TYPES parsed.modelName then
        .ok (.abort "not_supported") st1
      else
        let st2 := { st1 with discovered_adv := some parsed }
        if parsed.isEncrypted then
          async_step_password ms st2 none
        else
          async_step_confirm ms st2 none

/-- One iteration of the discovery loop body of _async_discover_devices:
skip the event when its normalized address is already configured or its
address is already a key of the accumulated map; skip an unparseable
advertisement; otherwise keep the advertisement exactly when the event is
connectable and the model is connectable-supported, or the model is
non-connectable-supported. -/
def discover_step (env : Env) (ms : ModelSets)
    (acc : List (String × SwitchBotAdvertisement)) (discovery_info : BluetoothServiceInfo) :
    List (String × SwitchBotAdvertisement) :=
  let address := discovery_info.address
  if env.configured_ids.contains (format_unique_id address) || (acc.lookup address).isSome then
    acc
  else
    match discovery_info.parsed with
    | none => acc
    | some parsed =>
      if (discovery_info.connectable
            && dict_contains ms.CONNECTABLE_SUPPORTED_MODEL_TYPES parsed.modelName)
          || dict_contains ms.NON_CONNECTABLE_SUPPORTED_MODEL_TYPES parsed.modelName then
        acc ++ [(address, parsed)]
      else
        acc

/-- The accumulated discovered-advertisements map after the two discovery
passes (connectable then non-connectable) of _async_discover_devices. -/
def discovered_after_scan (env : Env) (ms : ModelSets) (st : FlowState) :
    List (String × SwitchBotAdvertisement) :=
  (env.service_infos true ++ env.service_infos false).foldl (discover_step env ms) st.discovered_advs

/-- _async_discover_devices: runs both discovery passes, then raises
AbortFlow no_unconfigured_devices (surfaced to the host as an abort
result) when the map is empty.  Returns the abort result, when any, and
the state after the scan. -/
def async_discover_devices (env : Env) (ms : ModelSets) (st : FlowState) :
    Option FlowResult × FlowState :=
  let advs := discovered_after_scan env ms st
  if advs.isEmpty then
    (some (.abort "no_unconfigured_devices"), { st with discovered_advs := advs })
  else
    (none, { st with discovered_advs := advs })

/-- Set the device to work with: stores the advertisement, sets the
unique id from the normalized address, and aborts with already_configured
when that unique id is already configured.  The state mutations happen
before the duplicate check, as in the source. -/
def async_set_device (env : Env) (st : FlowState) (discovery : SwitchBotAdvertisement) :
    Option FlowResult × FlowState :=
  let st1 := { st with
    discovered_adv := some discovery,
    unique_id := some (format_unique_id discovery.address) }
  if env.configured_ids.contains (format_unique_id discovery.address) then
    (some (.abort "already_configured"), st1)
  else
    (none, st1)

/-- Handle the user step to pick a discovered device.  With submitted
input the chosen address is resolved in the discovered map (a missing key
raises KeyError), the device is set and duplicate-checked, and the flow
branches: lock model to the chose-method step, encrypted device to the
password step, otherwise the entry is created directly from the submitted
input.  With no input devices are discovered; exactly one device is
auto-selected and branched the same way except that the plain branch shows
the confirm form; two or more render the selection form. -/
def async_step_user (env : Env) (ms : ModelSets) (st : FlowState)
    (user_input : Option (List (String × String))) : StepResult :=
  match user_input with
  | some ui =>
    match dget ui CONF_ADDRESS with
    | none => .uncaughtException
    | some addr =>
      match st.discovered_advs.lookup addr with
      | none => .uncaughtException
      | some device_adv =>
        match async_set_device env st device_adv with
        | (some r, st1) => .ok r st1
        | (none, st1) =>
          if device_adv.modelName = some SwitchbotModel.LOCK then
            async_step_lock_chose_method env ms st1 none
          else if device_adv.isEncrypted then
            async_step_password ms st1 none
          else
            create_entry_from_discovery ms st1 ui
  | none =>
    match async_discover_devices env ms st with
    | (some r, st1) => .ok r st1
    | (none, st1) =>
      match st1.discovered_advs with
      | [(_, device_adv)] =>
        match async_set_device env st1 device_adv with
        | (some r, st2) => .ok r st2
        | (none, st2) =>
          if device_adv.modelName = some SwitchbotModel.LOCK then
            async_step_lock_chose_method env ms st2 none
          else if device_adv.isEncrypted then
            async_step_password ms st2 none
          else
            async_step_confirm ms st2 none
      | _ => .ok (.showForm "user" []) st1

/-- Modelled from the spec: the PurpleAir options sub-wizard source is not
among the sources (only its tests are); add-item sub-flow per spec section
4.3 and its scenario.  The persisted options bag: the list of watched
sensor indices plus the flag recording whether the last update added a
sensor. -/
structure PAOptions where
  last_update_sensor_add : Bool
  sensor_indices : List Int
deriving DecidableEq, Repr

/-- Modelled from the spec: result of one PurpleAir options sub-flow step
handed to the host: a rendered form with its step id and error map, a
terminal abort, or a terminal success replacing the whole options bag. -/
inductive PAResult where
  | form (step_id : String) (errors : List (String × String))
  | abortResult (reason : String)
  | created (options : PAOptions)
deriving DecidableEq, Repr

/-- Modelled from the spec: outcome of the external geographic radius
search around the submitted coordinates: the list of nearby sensor
indices, or a raised error (API failure). -/
inductive GeoSearchOutcome where
  | found (sensor_indices : List Int)
  | raised
deriving DecidableEq, Repr

/-- Modelled from the spec: the add_sensor step of the PurpleAir options
sub-wizard on submitted coordinates.  A raised search error re-renders the
add_sensor form with the generic error; an empty result re-renders it with
the no_sensors_near_coordinates error; a non-empty result advances to the
choose_sensor form. -/
def pa_options_add_sensor_submit (search : GeoSearchOutcome) : PAResult :=
  match search with
  | .raised => .form "add_sensor" [("base", "unknown")]
  | .found [] => .form "add_sensor" [("base", "no_sensors_near_coordinates")]
  | .found (_ :: _) => .form "choose_sensor" []

/-- Modelled from the spec: the choose_sensor step of the PurpleAir
options sub-wizard on a submitted sensor index.  An index already present
in the options bag aborts with already_configured; otherwise the run
succeeds with the index appended to the watched list and the whole options
bag replaced. -/
def pa_options_choose_sensor_submit (current : List Int) (sensor_index : Int) : PAResult :=
  if current.contains sensor_index then
    .abortResult "already_configured"
  else
    .created { last_update_sensor_add := true, sensor_indices := current ++ [sensor_index] }

/-- Concrete model sets for evaluating the flow on sample inputs: three
connectable models (one of them the lock) and one non-connectable model. -/
def ms0 : ModelSets :=
  { CONNECTABLE_SUPPORTED_MODEL_TYPES :=
      [("WoHand", "bot"), ("WoLock", "lock"), ("WoCurtain", "curtain")],
    NON_CONNECTABLE_SUPPORTED_MODEL_TYPES := [("WoSensorTH", "thermometer")] }

/-- A plain connectable, unencrypted sample advertisement. -/
def advBot : SwitchBotAdvertisement :=
  { address := "AA:BB:CC:DD:EE:FF", modelName := some "WoHand",
    modelFriendlyName := "Bot", isEncrypted := false }

/-- An encrypted, non-lock sample advertisement. -/
def advCurtain : SwitchBotAdvertisement :=
  { address := "C0:C1:C2:C3:C4:C5", modelName := some "WoCurtain",
    modelFriendlyName := "Curtain", isEncrypted := true }

/-- A lock sample advertisement. -/
def advLock : SwitchBotAdvertisement :=
  { address := "D0:D1:D2:D3:D4:D5", modelName := some "WoLock",
    modelFriendlyName := "Lock", isEncrypted := true }

/-- A baseline environment: nothing configured, nothing discovered, all
external calls fail closed. -/
def env0 : Env :=
  { configured_ids := [],
    service_infos := fun _ => [],
    verify_encryption_key := fun _ _ _ => false,
    initiate_auth := fun _ _ => .notAuthorized,
    key_request := fun _ _ => .raised }

/-- The transient state a step handler leaves behind, the input state when
the handler did not return a result. -/
def step_state (r : StepResult) (s : FlowState) : FlowState :=
  match r with
  | .ok _ s2 => s2
  | _ => s

/-- A run state in which the lock advertisement has been selected. -/
def stLock : FlowState := { discovered_adv := some advLock }

/-- A run state holding two discovered candidates, the encrypted curtain
and the plain bot. -/
def stTwo : FlowState :=
  { discovered_advs := [("C0:C1:C2:C3:C4:C5", advCurtain), ("AA:BB:CC:DD:EE:FF", advBot)] }

/-- Sample credentials submission for the lock auth step. -/
def uiAuth : List (String × String) := [(CONF_USERNAME, "u"), (CONF_PASSWORD, "p")]

/-- Environment whose identity service fails with a non-rejection error. -/
def envOtherError : Env := { env0 with initiate_auth := fun _ _ => .raisedOther }

/-- Environment where authentication succeeds but the key-retrieval HTTP
call raises (timeout or transport error). -/
def envAuthOkKeyRaised : Env :=
  { env0 with
    initiate_auth := fun _ _ =>
      .returned (some { authenticationResult := some { accessToken := some "tok" } }),
    key_request := fun _ _ => .raised }

/-- Environment where authentication and key retrieval both succeed; the
device-side key verification oracle still rejects. -/
def envAuthOkKeyOk : Env :=
  { envAuthOkKeyRaised with key_request := fun _ _ => .response 100 "kid1" "enc1" }

/-- Environment where authentication, key retrieval and device-side key
verification all succeed. -/
def envAuthOkKeyOkVerify : Env :=
  { envAuthOkKeyOk with verify_encryption_key := fun _ _ _ => true }

theorem char_toNat_ofNat_of_lt {n : Nat} (h : n < 55296) : (Char.ofNat n).toNat = n := by
  have hv : n.isValidChar := Or.inl h
  rw [Char.ofNat, dif_pos hv]
  rfl

theorem char_toNat_toLower (c : Char) :
    c.toLower.toNat = if 65 ≤ c.toNat ∧ c.toNat ≤ 90 then c.toNat + 32 else c.toNat := by
  simp only [Char.toLower]
  by_cases h : 65 ≤ c.toNat ∧ c.toNat ≤ 90
  · rw [if_pos h, if_pos h, char_toNat_ofNat_of_lt (by omega)]
  · rw [if_neg h, if_neg h]

theorem char_toLower_of_not (c : Char) (h : ¬(65 ≤ c.toNat ∧ c.toNat ≤ 90)) : c.toLower = c := by
  simp only [Char.toLower]
  rw [if_neg h]

theorem char_toLower_toLower (c : Char) : c.toLower.toLower = c.toLower := by
  apply char_toLower_of_not
  rw [char_toNat_toLower]
  by_cases h : 65 ≤ c.toNat ∧ c.toNat ≤ 90
  · rw [if_pos h]; omega
  · rw [if_neg h]; exact h

theorem char_toLower_bne_colon (c : Char) : (c.toLower != ':') = (c != ':') := by
  by_cases h : 65 ≤ c.toNat ∧ c.toNat ≤ 90
  · have h1 : c.toLower.toNat = c.toNat + 32 := by rw [char_toNat_toLower, if_pos h]
    have h2 : c.toLower ≠ ':' := by
      intro he
      rw [he] at h1
      have h58 : (':' : Char).toNat = 58 := by decide
      omega
    have h3 : c ≠ ':' := by
      intro he
      subst he
      revert h
      decide
    have hA : (c.toLower != ':') = true := by simp [h2]
    have hB : (c != ':') = true := by simp [h3]
    rw [hA, hB]
  · rw [char_toLower_of_not c h]

theorem filter_colon_map_toLower (l : List Char) :
    (l.map Char.toLower).filter (fun c => c != ':')
      = (l.filter (fun c => c != ':')).map Char.toLower := by
  induction l with
  | nil => rfl
  | cons a l ih =>
    simp only [List.map_cons, List.filter_cons, char_toLower_bne_colon]
    cases hb : (a != ':') <;> simp [ih]

theorem filter_self_idem (p : Char → Bool) (l : List Char) :
    (l.filter p).filter p = l.filter p := by
  induction l with
  | nil => rfl
  | cons a l ih =>
    cases hb : p a <;> simp [List.filter_cons, hb, ih]

theorem map_toLower_idem (l : List Char) :
    (l.map Char.toLower).map Char.toLower = l.map Char.toLower := by
  induction l with
  | nil => rfl
  | cons a l ih => simp [char_toLower_toLower, ih]

/-- C10: format_unique_id is idempotent, and two addresses that differ
only in letter case (their characters lower-case to the same sequence) or
only in the placement of colon separators (removing colons leaves the
same sequence) are mapped to the same identity, so the duplicate check
treats them as the same device. -/
theorem C10_format_unique_id_normalizes :
    (∀ a : String, format_unique_id (format_unique_id a) = format_unique_id a)
    ∧ (∀ a b : String, a.data.map Char.toLower = b.data.map Char.toLower →
        format_unique_id a = format_unique_id b)
    ∧ (∀ a b : String, a.data.filter (fun c => c != ':') = b.data.filter (fun c => c != ':') →
        format_unique_id a = format_unique_id b) := by
  refine ⟨fun a => ?_, fun a b h => ?_, fun a b h => ?_⟩
  · simp only [format_unique_id]
    congr 1
    rw [filter_colon_map_toLower, filter_self_idem, map_toLower_idem]
  · simp only [format_unique_id]
    congr 1
    rw [← filter_colon_map_toLower, h, filter_colon_map_toLower]
  · simp only [format_unique_id]
    congr 1
    rw [h]

theorem C10_witness :
    format_unique_id (format_unique_id "AA:BB:CC:DD:EE:FF") = format_unique_id "AA:BB:CC:DD:EE:FF"
    ∧ format_unique_id "AA:BB:CC:DD:EE:FF" = format_unique_id "aa:bb:cc:dd:ee:ff"
    ∧ format_unique_id "AA:BB:CC:DD:EE:FF" = format_unique_id "AABBCCDDEEFF" :=
  ⟨C10_format_unique_id_normalizes.1 "AA:BB:CC:DD:EE:FF",
   C10_format_unique_id_normalizes.2.1 "AA:BB:CC:DD:EE:FF" "aa:bb:cc:dd:ee:ff" (by decide),
   C10_format_unique_id_normalizes.2.2 "AA:BB:CC:DD:EE:FF" "AABBCCDDEEFF" (by decide)⟩

theorem lookup_append_isSome (l1 l2 : List (String × String)) (k : String) :
    ((l1 ++ l2).lookup k).isSome = ((l1.lookup k).isSome || (l2.lookup k).isSome) := by
  induction l1 with
  | nil => simp
  | cons kv l ih =>
    cases kv with
    | mk k2 v =>
      simp only [List.cons_append, List.lookup]
      cases h : (k == k2) <;> simp [h, ih]

/-- C1: whenever a persisted record already carries the normalized
identity of the candidate address, the run aborts with already_configured
at the moment the identity becomes known: the passive-discovery entry
point aborts right after setting the unique id, before any parsing, and
the explicit selection helper aborts regardless of the transient state
accumulated by however many steps preceded it. -/
theorem C1_duplicate_identity_aborts (env : Env) (ms : ModelSets) (st : FlowState)
    (info : BluetoothServiceInfo) (discovery : SwitchBotAdvertisement)
    (h1 : env.configured_ids.contains (format_unique_id info.address) = true)
    (h2 : env.configured_ids.contains (format_unique_id discovery.address) = true) :
    async_step_bluetooth env ms st info
      = .ok (.abort "already_configured")
          { st with unique_id := some (format_unique_id info.address) }
    ∧ (async_set_device env st discovery).1 = some (.abort "already_configured") := by
  have h1m : format_unique_id info.address ∈ env.configured_ids := by simpa using h1
  have h2m : format_unique_id discovery.address ∈ env.configured_ids := by simpa using h2
  constructor
  · simp [async_step_bluetooth, h1m]
  · simp [async_set_device, h2m]

theorem C1_witness :
    ({ env0 with configured_ids := ["aabbccddeeff"] } : Env).configured_ids.contains
        (format_unique_id "AA:BB:CC:DD:EE:FF") = true
    ∧ (async_step_bluetooth { env0 with configured_ids := ["aabbccddeeff"] } ms0 {}
          { address := "AA:BB:CC:DD:EE:FF", connectable := true, parsed := some advBot }
        = .ok (.abort "already_configured")
            { ({} : FlowState) with unique_id := some (format_unique_id "AA:BB:CC:DD:EE:FF") }
      ∧ (async_set_device { env0 with configured_ids := ["aabbccddeeff"] } {} advBot).1
          = some (.abort "already_configured")) :=
  ⟨by decide,
   C1_duplicate_identity_aborts { env0 with configured_ids := ["aabbccddeeff"] } ms0 {}
     { address := "AA:BB:CC:DD:EE:FF", connectable := true, parsed := some advBot } advBot
     (by decide) (by decide)⟩

/-- C2: a discovery event for a model that requires a connectable
transport (it is in the connectable-supported map and, the sets being a
partition, not in the non-connectable map) arriving over a
non-connectable transport never yields an eligible candidate: the passive
entry point aborts with not_supported, and one iteration of the active
scan loop leaves the accumulated candidate map unchanged whatever it
already holds — the same eligibility rule on both paths. -/
theorem C2_nonconnectable_event_excluded (env : Env) (ms : ModelSets) (st : FlowState)
    (info : BluetoothServiceInfo) (parsed : SwitchBotAdvertisement) (m : String)
    (hp : info.parsed = some parsed)
    (hm : parsed.modelName = some m)
    (hc : (ms.CONNECTABLE_SUPPORTED_MODEL_TYPES.lookup m).isSome = true)
    (hnc : (ms.NON_CONNECTABLE_SUPPORTED_MODEL_TYPES.lookup m).isSome = false)
    (hconn : info.connectable = false)
    (hid : env.configured_ids.contains (format_unique_id info.address) = false) :
    async_step_bluetooth env ms st info
      = .ok (.abort "not_supported")
          { st with unique_id := some (format_unique_id info.address) }
    ∧ ∀ acc, discover_step env ms acc info = acc := by
  have hidm : format_unique_id info.address ∉ env.configured_ids := by simpa using hid
  constructor
  · have hsup : dict_contains (SUPPORTED_MODEL_TYPES ms) parsed.modelName = true := by
      rw [hm]
      simp only [dict_contains, SUPPORTED_MODEL_TYPES, lookup_append_isSome, hc, Bool.true_or]
    simp [async_step_bluetooth, hidm, hp, hsup, hconn, dict_contains, hm, hc]
  · intro acc
    cases hacc : (acc.lookup info.address).isSome <;>
      simp [discover_step, hidm, hacc, hp, hconn, dict_contains, hm, hnc]

theorem C2_witness :
    (({ address := "AA:BB:CC:DD:EE:FF", connectable := false, parsed := some advBot }
        : BluetoothServiceInfo).connectable = false
      ∧ (ms0.CONNECTABLE_SUPPORTED_MODEL_TYPES.lookup "WoHand").isSome = true)
    ∧ (async_step_bluetooth env0 ms0 {}
          { address := "AA:BB:CC:DD:EE:FF", connectable := false, parsed := some advBot }
        = .ok (.abort "not_supported")
            { ({} : FlowState) with unique_id := some (format_unique_id "AA:BB:CC:DD:EE:FF") }
      ∧ discover_step env0 ms0 []
          { address := "AA:BB:CC:DD:EE:FF", connectable := false, parsed := some advBot } = []) :=
  ⟨⟨rfl, by decide⟩,
   (C2_nonconnectable_event_excluded env0 ms0 {}
      { address := "AA:BB:CC:DD:EE:FF", connectable := false, parsed := some advBot }
      advBot "WoHand" rfl rfl (by decide) (by decide) rfl (by decide)).1,
   (C2_nonconnectable_event_excluded env0 ms0 {}
      { address := "AA:BB:CC:DD:EE:FF", connectable := false, parsed := some advBot }
      advBot "WoHand" rfl rfl (by decide) (by decide) rfl (by decide)).2 []⟩

/-- C8: when the active discovery scan finds no eligible candidate, the
user step terminates at once with the no_unconfigured_devices abort — a
terminal result, not a rendered form, with no retry point inside the
run. -/
theorem C8_zero_candidates_abort (env : Env) (ms : ModelSets) (st : FlowState)
    (h : discovered_after_scan env ms st = []) :
    async_step_user env ms st none
      = .ok (.abort "no_unconfigured_devices") { st with discovered_advs := [] } := by
  simp [async_step_user, async_discover_devices, h]

theorem C8_witness :
    discovered_after_scan env0 ms0 {} = []
    ∧ async_step_user env0 ms0 {} none
        = .ok (.abort "no_unconfigured_devices") { ({} : FlowState) with discovered_advs := [] } :=
  ⟨by decide, C8_zero_candidates_abort env0 ms0 {} (by decide)⟩

/-- C5: when the active discovery scan yields exactly one eligible
candidate whose identity is not yet configured, the user step skips the
multi-item selection form entirely and renders the branch decision
directly: the method-choice form for a lock, the password form for an
encrypted device, otherwise the confirm form. -/
theorem C5_single_candidate_auto_advance (env : Env) (ms : ModelSets) (st : FlowState)
    (addr : String) (adv : SwitchBotAdvertisement)
    (hscan : discovered_after_scan env ms st = [(addr, adv)])
    (hid : env.configured_ids.contains (format_unique_id adv.address) = false) :
    async_step_user env ms st none
      = .ok (.showForm
            (if adv.modelName = some SwitchbotModel.LOCK then "lock_chose_method"
             else if adv.isEncrypted then "password"
             else "confirm")
            [])
          { st with
            discovered_advs := [(addr, adv)],
            discovered_adv := some adv,
            unique_id := some (format_unique_id adv.address) } := by
  have hidm : format_unique_id adv.address ∉ env.configured_ids := by simpa using hid
  by_cases hL : adv.modelName = some SwitchbotModel.LOCK
  · simp [async_step_user, async_discover_devices, hscan, async_set_device, hidm, hL,
      async_step_lock_chose_method]
  · by_cases hE : adv.isEncrypted
    · simp [async_step_user, async_discover_devices, hscan, async_set_device, hidm, hL, hE,
        async_step_password]
    · simp [async_step_user, async_discover_devices, hscan, async_set_device, hidm, hL, hE,
        async_step_confirm]

theorem C5_witness :
    discovered_after_scan
        { env0 with service_infos := fun c =>
            if c then [{ address := "AA:BB:CC:DD:EE:FF", connectable := true, parsed := some advBot }]
            else [] }
        ms0 {} = [("AA:BB:CC:DD:EE:FF", advBot)]
    ∧ async_step_user
        { env0 with service_infos := fun c =>
            if c then [{ address := "AA:BB:CC:DD:EE:FF", connectable := true, parsed := some advBot }]
            else [] }
        ms0 {} none
      = .ok (.showForm
            (if advBot.modelName = some SwitchbotModel.LOCK then "lock_chose_method"
             else if advBot.isEncrypted then "password"
             else "confirm")
            [])
          { ({} : FlowState) with
            discovered_advs := [("AA:BB:CC:DD:EE:FF", advBot)],
            discovered_adv := some advBot,
            unique_id := some (format_unique_id advBot.address) } :=
  ⟨by decide,
   C5_single_candidate_auto_advance
     { env0 with service_infos := fun c =>
         if c then [{ address := "AA:BB:CC:DD:EE:FF", connectable := true, parsed := some advBot }]
         else [] }
     ms0 {} "AA:BB:CC:DD:EE:FF" advBot (by decide) (by decide)⟩

/-- C3 counterexample: the controller does not render an
authentication-specific message for the explicit rejection and a generic
one for other failures — an explicit rejection by the identity service
and a non-rejection failure produce the identical rendered result, the
same auth_failed tag on the username field. -/
theorem C3_counterexample :
    async_step_lock_auth env0 ms0 stLock (some uiAuth)
      = .ok (.showForm "lock_auth" [(CONF_USERNAME, "auth_failed")]) stLock
    ∧ async_step_lock_auth envOtherError ms0 stLock (some uiAuth)
      = .ok (.showForm "lock_auth" [(CONF_USERNAME, "auth_failed")]) stLock := by
  constructor <;> decide

/-- C3 amended: retrieve_lock_key raises RuntimeError for the explicit
rejection and for any other initiate_auth failure alike, distinguished
only by the message string; the controller catches every RuntimeError
uniformly and renders the same auth_failed tag on the username field with
the state unchanged, using no distinction between the failure kinds. -/
theorem C3_uniform_runtime_error_rendering (env : Env) (ms : ModelSets) (st : FlowState)
    (adv : SwitchBotAdvertisement) (ui : List (String × String)) (msg : String)
    (hadv : st.discovered_adv = some adv) :
    (env.initiate_auth (dget ui CONF_USERNAME) (dget ui CONF_PASSWORD) = .notAuthorized →
      retrieve_lock_key env adv.address (dget ui CONF_USERNAME) (dget ui CONF_PASSWORD)
        = .runtimeError "Failed to authenticate")
    ∧ (env.initiate_auth (dget ui CONF_USERNAME) (dget ui CONF_PASSWORD) = .raisedOther →
      retrieve_lock_key env adv.address (dget ui CONF_USERNAME) (dget ui CONF_PASSWORD)
        = .runtimeError "Unexpected error during authentication")
    ∧ ("Failed to authenticate" ≠ "Unexpected error during authentication")
    ∧ (retrieve_lock_key env adv.address (dget ui CONF_USERNAME) (dget ui CONF_PASSWORD)
        = .runtimeError msg →
      async_step_lock_auth env ms st (some ui)
        = .ok (.showForm "lock_auth" [(CONF_USERNAME, "auth_failed")]) st) := by
  refine ⟨fun h => ?_, fun h => ?_, by decide, fun h => ?_⟩
  · simp [retrieve_lock_key, h]
  · simp [retrieve_lock_key, h]
  · simp [async_step_lock_auth, hadv, h]

theorem C3_witness :
    stLock.discovered_adv = some advLock
    ∧ retrieve_lock_key env0 advLock.address (dget uiAuth CONF_USERNAME) (dget uiAuth CONF_PASSWORD)
        = .runtimeError "Failed to authenticate"
    ∧ async_step_lock_auth env0 ms0 stLock (some uiAuth)
        = .ok (.showForm "lock_auth" [(CONF_USERNAME, "auth_failed")]) stLock :=
  ⟨by decide,
   (C3_uniform_runtime_error_rendering env0 ms0 stLock advLock uiAuth "Failed to authenticate"
      (by decide)).1 (by decide),
   (C3_uniform_runtime_error_rendering env0 ms0 stLock advLock uiAuth "Failed to authenticate"
      (by decide)).2.2.2 (by decide)⟩

/-- C4 counterexample: not every external-validation failure in the
credential step re-renders the form — when the identity service
authenticates but the key-retrieval HTTP call raises (timeout, transport
error, malformed JSON), the exception is not caught by the step, which
produces no rendered form at all. -/
theorem C4_counterexample :
    async_step_lock_auth envAuthOkKeyRaised ms0 stLock (some uiAuth) = .uncaughtException := by
  decide

/-- C4 amended: every validation failure surfaced as a RuntimeError in
the credential step, and every device-side rejection in the secret step,
re-renders the same form with the field-level error tags and returns the
transient state unchanged, so N consecutive failed submissions re-render
the same state N times with no mutation; however a raised exception from
the key-retrieval HTTP call itself escapes the credential step uncaught
instead of re-rendering. -/
theorem C4_failed_validation_rerenders (env : Env) (ms : ModelSets) (st : FlowState)
    (adv : SwitchBotAdvertisement) (ui ui2 : List (String × String)) (msg : String)
    (hadv : st.discovered_adv = some adv)
    (hauth : retrieve_lock_key env adv.address (dget ui CONF_USERNAME) (dget ui CONF_PASSWORD)
      = .runtimeError msg)
    (hver : env.verify_encryption_key adv.address (dget ui2 CONF_KEY_ID) (dget ui2 CONF_ENCRYPTION_KEY)
      = false) :
    async_step_lock_auth env ms st (some ui)
      = .ok (.showForm "lock_auth" [(CONF_USERNAME, "auth_failed")]) st
    ∧ async_step_lock_key env ms st (some ui2)
      = .ok (.showForm "lock_key"
            [(CONF_KEY_ID, "key_id_invalid"), (CONF_ENCRYPTION_KEY, "encryption_key_invalid")]) st
    ∧ (∀ n : Nat, (fun s => step_state (async_step_lock_auth env ms s (some ui)) s)^[n] st = st)
    ∧ (∀ n : Nat, (fun s => step_state (async_step_lock_key env ms s (some ui2)) s)^[n] st = st) := by
  have hA : async_step_lock_auth env ms st (some ui)
      = .ok (.showForm "lock_auth" [(CONF_USERNAME, "auth_failed")]) st := by
    simp [async_step_lock_auth, hadv, hauth]
  have hB : async_step_lock_key env ms st (some ui2)
      = .ok (.showForm "lock_key"
          [(CONF_KEY_ID, "key_id_invalid"), (CONF_ENCRYPTION_KEY, "encryption_key_invalid")]) st := by
    simp [async_step_lock_key, hadv, hver]
  have hfA : step_state (async_step_lock_auth env ms st (some ui)) st = st := by
    rw [hA, step_state]
  have hfB : step_state (async_step_lock_key env ms st (some ui2)) st = st := by
    rw [hB, step_state]
  refine ⟨hA, hB, fun n => ?_, fun n => ?_⟩
  · induction n with
    | zero => rfl
    | succ k ih => rw [Function.iterate_succ_apply, hfA, ih]
  · induction n with
    | zero => rfl
    | succ k ih => rw [Function.iterate_succ_apply, hfB, ih]

theorem C4_witness :
    (stLock.discovered_adv = some advLock
      ∧ retrieve_lock_key env0 advLock.address (dget uiAuth CONF_USERNAME) (dget uiAuth CONF_PASSWORD)
          = .runtimeError "Failed to authenticate"
      ∧ env0.verify_encryption_key advLock.address
          (dget [(CONF_KEY_ID, "bad"), (CONF_ENCRYPTION_KEY, "bad")] CONF_KEY_ID)
          (dget [(CONF_KEY_ID, "bad"), (CONF_ENCRYPTION_KEY, "bad")] CONF_ENCRYPTION_KEY) = false)
    ∧ (async_step_lock_auth env0 ms0 stLock (some uiAuth)
        = .ok (.showForm "lock_auth" [(CONF_USERNAME, "auth_failed")]) stLock
      ∧ async_step_lock_key env0 ms0 stLock (some [(CONF_KEY_ID, "bad"), (CONF_ENCRYPTION_KEY, "bad")])
        = .ok (.showForm "lock_key"
              [(CONF_KEY_ID, "key_id_invalid"), (CONF_ENCRYPTION_KEY, "encryption_key_invalid")]) stLock
      ∧ (fun s => step_state (async_step_lock_auth env0 ms0 s (some uiAuth)) s)^[3] stLock = stLock
      ∧ (fun s => step_state
          (async_step_lock_key env0 ms0 s (some [(CONF_KEY_ID, "bad"), (CONF_ENCRYPTION_KEY, "bad")])) s)^[2]
            stLock = stLock) :=
  ⟨⟨by decide, by decide, by decide⟩,
   (C4_failed_validation_rerenders env0 ms0 stLock advLock uiAuth
      [(CONF_KEY_ID, "bad"), (CONF_ENCRYPTION_KEY, "bad")] "Failed to authenticate"
      (by decide) (by decide) (by decide)).1,
   (C4_failed_validation_rerenders env0 ms0 stLock advLock uiAuth
      [(CONF_KEY_ID, "bad"), (CONF_ENCRYPTION_KEY, "bad")] "Failed to authenticate"
      (by decide) (by decide) (by decide)).2.1,
   (C4_failed_validation_rerenders env0 ms0 stLock advLock uiAuth
      [(CONF_KEY_ID, "bad"), (CONF_ENCRYPTION_KEY, "bad")] "Failed to authenticate"
      (by decide) (by decide) (by decide)).2.2.1 3,
   (C4_failed_validation_rerenders env0 ms0 stLock advLock uiAuth
      [(CONF_KEY_ID, "bad"), (CONF_ENCRYPTION_KEY, "bad")] "Failed to authenticate"
      (by decide) (by decide) (by decide)).2.2.2 2⟩

/-- C6: selecting an encrypted non-lock candidate from the selection form
renders the password form without touching the transient state beyond the
selection itself, and any submitted password is accepted unconditionally:
the run terminates with an entry whose data holds the submitted password
together with the selected candidate's address and sensor type. -/
theorem C6_encrypted_nonlock_password_flow (env : Env) (ms : ModelSets) (st : FlowState)
    (addr p m stype : String) (adv : SwitchBotAdvertisement)
    (hlook : st.discovered_advs.lookup addr = some adv)
    (hm : adv.modelName = some m)
    (hnl : m ≠ SwitchbotModel.LOCK)
    (henc : adv.isEncrypted = true)
    (hid : env.configured_ids.contains (format_unique_id adv.address) = false)
    (hsup : (SUPPORTED_MODEL_TYPES ms).lookup m = some stype) :
    async_step_user env ms st (some [(CONF_ADDRESS, addr)])
      = .ok (.showForm "password" [])
          { st with discovered_adv := some adv, unique_id := some (format_unique_id adv.address) }
    ∧ async_step_password ms
        { st with discovered_adv := some adv, unique_id := some (format_unique_id adv.address) }
        (some [(CONF_PASSWORD, p)])
      = .ok (.createEntry (name_from_discovery adv)
            [(CONF_PASSWORD, p), (CONF_ADDRESS, adv.address), (CONF_SENSOR_TYPE, stype)])
          { st with discovered_adv := some adv, unique_id := some (format_unique_id adv.address) }
    ∧ dget [(CONF_PASSWORD, p), (CONF_ADDRESS, adv.address), (CONF_SENSOR_TYPE, stype)]
        CONF_PASSWORD = some p
    ∧ dget [(CONF_PASSWORD, p), (CONF_ADDRESS, adv.address), (CONF_SENSOR_TYPE, stype)]
        CONF_ADDRESS = some adv.address
    ∧ dget [(CONF_PASSWORD, p), (CONF_ADDRESS, adv.address), (CONF_SENSOR_TYPE, stype)]
        CONF_SENSOR_TYPE = some stype := by
  have hidm : format_unique_id adv.address ∉ env.configured_ids := by simpa using hid
  have hmL : adv.modelName ≠ some SwitchbotModel.LOCK := by
    rw [hm]
    simpa using hnl
  refine ⟨?_, ?_, ?_, ?_, ?_⟩
  · simp [async_step_user, dget, hlook, async_set_device, hidm, hmL, henc, async_step_password]
  · simp [async_step_password, create_entry_from_discovery, hm, hsup]
  · simp [dget, CONF_PASSWORD, CONF_ADDRESS, CONF_SENSOR_TYPE]
  · simp [dget, CONF_PASSWORD, CONF_ADDRESS, CONF_SENSOR_TYPE]
  · simp [dget, CONF_PASSWORD, CONF_ADDRESS, CONF_SENSOR_TYPE]

theorem C6_witness :
    (stTwo.discovered_advs.lookup "C0:C1:C2:C3:C4:C5" = some advCurtain
      ∧ advCurtain.isEncrypted = true
      ∧ advCurtain.modelName ≠ some SwitchbotModel.LOCK)
    ∧ (async_step_user env0 ms0 stTwo (some [(CONF_ADDRESS, "C0:C1:C2:C3:C4:C5")])
        = .ok (.showForm "password" [])
            { stTwo with
              discovered_adv := some advCurtain,
              unique_id := some (format_unique_id advCurtain.address) }
      ∧ async_step_password ms0
          { stTwo with
            discovered_adv := some advCurtain,
            unique_id := some (format_unique_id advCurtain.address) }
          (some [(CONF_PASSWORD, "x")])
        = .ok (.createEntry (name_from_discovery advCurtain)
              [(CONF_PASSWORD, "x"), (CONF_ADDRESS, advCurtain.address),
               (CONF_SENSOR_TYPE, "curtain")])
            { stTwo with
              discovered_adv := some advCurtain,
              unique_id := some (format_unique_id advCurtain.address) }
      ∧ dget [(CONF_PASSWORD, "x"), (CONF_ADDRESS, advCurtain.address),
              (CONF_SENSOR_TYPE, "curtain")] CONF_PASSWORD = some "x") :=
  ⟨⟨by decide, by decide, by decide⟩,
   (C6_encrypted_nonlock_password_flow env0 ms0 stTwo "C0:C1:C2:C3:C4:C5" "x" "WoCurtain"
      "curtain" advCurtain (by decide) (by decide) (by decide) (by decide) (by decide)
      (by decide)).1,
   (C6_encrypted_nonlock_password_flow env0 ms0 stTwo "C0:C1:C2:C3:C4:C5" "x" "WoCurtain"
      "curtain" advCurtain (by decide) (by decide) (by decide) (by decide) (by decide)
      (by decide)).2.1,
   (C6_encrypted_nonlock_password_flow env0 ms0 stTwo "C0:C1:C2:C3:C4:C5" "x" "WoCurtain"
      "curtain" advCurtain (by decide) (by decide) (by decide) (by decide) (by decide)
      (by decide)).2.2.1⟩

/-- C7 counterexample: a successful credential exchange does not by
itself finalize the run — with the resolver returning a key bundle but
the device-side verification of that bundle rejecting it, the run
re-renders the lock_key form with field errors instead of creating an
entry. -/
theorem C7_counterexample :
    retrieve_lock_key envAuthOkKeyOk advLock.address
        (dget uiAuth CONF_USERNAME) (dget uiAuth CONF_PASSWORD)
      = .keyDetails [(CONF_KEY_ID, "kid1"), (CONF_ENCRYPTION_KEY, "enc1")]
    ∧ async_step_lock_auth envAuthOkKeyOk ms0 stLock (some uiAuth)
      = .ok (.showForm "lock_key"
            [(CONF_KEY_ID, "key_id_invalid"), (CONF_ENCRYPTION_KEY, "encryption_key_invalid")])
          stLock := by
  constructor <;> decide

/-- C7 amended: on a successful credential exchange the run proceeds to
the secret-entry validation with the resolved key bundle as its input;
when the device-side verification of the retrieved key succeeds, the run
finalizes with the key id and key material merged into the persisted
data. -/
theorem C7_auth_success_finalizes (env : Env) (ms : ModelSets) (st : FlowState)
    (adv : SwitchBotAdvertisement) (ui : List (String × String)) (kid k m stype : String)
    (hadv : st.discovered_adv = some adv)
    (hret : retrieve_lock_key env adv.address (dget ui CONF_USERNAME) (dget ui CONF_PASSWORD)
      = .keyDetails [(CONF_KEY_ID, kid), (CONF_ENCRYPTION_KEY, k)])
    (hver : env.verify_encryption_key adv.address (some kid) (some k) = true)
    (hm : adv.modelName = some m)
    (hsup : (SUPPORTED_MODEL_TYPES ms).lookup m = some stype) :
    async_step_lock_auth env ms st (some ui)
      = .ok (.createEntry (name_from_discovery adv)
            [(CONF_KEY_ID, kid), (CONF_ENCRYPTION_KEY, k),
             (CONF_ADDRESS, adv.address), (CONF_SENSOR_TYPE, stype)])
          st
    ∧ dget [(CONF_KEY_ID, kid), (CONF_ENCRYPTION_KEY, k),
            (CONF_ADDRESS, adv.address), (CONF_SENSOR_TYPE, stype)] CONF_KEY_ID = some kid
    ∧ dget [(CONF_KEY_ID, kid), (CONF_ENCRYPTION_KEY, k),
            (CONF_ADDRESS, adv.address), (CONF_SENSOR_TYPE, stype)] CONF_ENCRYPTION_KEY = some k := by
  refine ⟨?_, ?_, ?_⟩
  · simp [async_step_lock_auth, hadv, hret, async_step_lock_key, dget,
      CONF_KEY_ID, CONF_ENCRYPTION_KEY, hver, create_entry_from_discovery, hm, hsup]
  · simp [dget, CONF_KEY_ID, CONF_ENCRYPTION_KEY, CONF_ADDRESS, CONF_SENSOR_TYPE]
  · simp [dget, CONF_KEY_ID, CONF_ENCRYPTION_KEY, CONF_ADDRESS, CONF_SENSOR_TYPE]

theorem C7_witness :
    (retrieve_lock_key envAuthOkKeyOkVerify advLock.address
        (dget uiAuth CONF_USERNAME) (dget uiAuth CONF_PASSWORD)
      = .keyDetails [(CONF_KEY_ID, "kid1"), (CONF_ENCRYPTION_KEY, "enc1")]
      ∧ envAuthOkKeyOkVerify.verify_encryption_key advLock.address (some "kid1") (some "enc1") = true)
    ∧ (async_step_lock_auth envAuthOkKeyOkVerify ms0 stLock (some uiAuth)
        = .ok (.createEntry (name_from_discovery advLock)
              [(CONF_KEY_ID, "kid1"), (CONF_ENCRYPTION_KEY, "enc1"),
               (CONF_ADDRESS, advLock.address), (CONF_SENSOR_TYPE, "lock")])
            stLock
      ∧ dget [(CONF_KEY_ID, "kid1"), (CONF_ENCRYPTION_KEY, "enc1"),
              (CONF_ADDRESS, advLock.address), (CONF_SENSOR_TYPE, "lock")] CONF_KEY_ID = some "kid1") :=
  ⟨⟨by decide, by decide⟩,
   (C7_auth_success_finalizes envAuthOkKeyOkVerify ms0 stLock advLock uiAuth "kid1" "enc1"
      "WoLock" "lock" (by decide) (by decide) (by decide) (by decide) (by decide)).1,
   (C7_auth_success_finalizes envAuthOkKeyOkVerify ms0 stLock advLock uiAuth "kid1" "enc1"
      "WoLock" "lock" (by decide) (by decide) (by decide) (by decide) (by decide)).2.1⟩

/-- C9: in the options add-item sub-flow, a geographic search returning
zero results re-renders the add_sensor state with the
no_sensors_near_coordinates error instead of advancing; a search finding
at least one item advances to the choose_sensor state; submitting an
index not yet watched succeeds with the index appended to the options
list; and resubmitting an index already present aborts with
already_configured. -/
theorem C9_options_add_item (current : List Int) (idx i : Int) (rest : List Int) :
    pa_options_add_sensor_submit (.found [])
      = .form "add_sensor" [("base", "no_sensors_near_coordinates")]
    ∧ pa_options_add_sensor_submit (.found (i :: rest)) = .form "choose_sensor" []
    ∧ (current.contains idx = false →
        pa_options_choose_sensor_submit current idx
          = .created { last_update_sensor_add := true, sensor_indices := current ++ [idx] })
    ∧ (current.contains idx = true →
        pa_options_choose_sensor_submit current idx = .abortResult "already_configured") := by
  refine ⟨rfl, rfl, fun h => ?_, fun h => ?_⟩
  · have hm : idx ∉ current := by simpa using h
    simp [pa_options_choose_sensor_submit, hm]
  · have hm : idx ∈ current := by simpa using h
    simp [pa_options_choose_sensor_submit, hm]

theorem C9_witness :
    pa_options_add_sensor_submit (.found [])
      = .form "add_sensor" [("base", "no_sensors_near_coordinates")]
    ∧ pa_options_add_sensor_submit (.found [567890]) = .form "choose_sensor" []
    ∧ pa_options_choose_sensor_submit [123456] 567890
        = .created { last_update_sensor_add := true, sensor_indices := [123456] ++ [567890] }
    ∧ pa_options_choose_sensor_submit [123456] 123456 = .abortResult "already_configured" :=
  ⟨(C9_options_add_item [123456] 567890 567890 []).1,
   (C9_options_add_item [123456] 567890 567890 []).2.1,
   (C9_options_add_item [123456] 567890 567890 []).2.2.1 (by decide),
   (C9_options_add_item [123456] 123456 567890 []).2.2.2 (by decide)⟩
